import Mathlib

/-!
Verification of the blueprint bootstrap action-generation code.

The definitions below are a shallow embedding of `bootstrap/bootstrap.go`:
modules become structures, `ctx.Build` emissions become lists of
`BuildParams`, and the per-module `GenerateBuildActions` methods become pure
functions from configuration, module context and module state to emitted
actions (plus per-module errors and the mutated module state).
-/

namespace BlueprintBootstrap

/-- filepath.Join on the clean slash-separated path fragments used by the
bootstrap code: joins the two components with a slash, dropping an empty
component. -/
def joinPath (a b : String) : String :=
  if a = "" then b else if b = "" then a else a ++ "/" ++ b

/-- pathtools.PrefixPaths: joins the prefix onto every path in the list. -/
def prefixPaths (paths : List String) (pre : String) : List String :=
  paths.map (fun p => joinPath pre p)

/-- filepath.Dir on clean slash-separated paths: everything before the last
slash, or "." when the path has no slash. -/
def dirOf (p : String) : String :=
  let parts := p.data.splitOn '/'
  if parts.length ≤ 1 then "." else ⟨List.intercalate ['/'] parts.dropLast⟩

/-- filepath.Base on clean slash-separated paths: the last component. -/
def baseOf (p : String) : String :=
  if p = "" then "." else ⟨(p.data.splitOn '/').getLastD p.data⟩

/-- const bootstrapDir. -/
def bootstrapDir : String := "$buildDir/.bootstrap"

/-- const miniBootstrapDir. -/
def miniBootstrapDir : String := "$buildDir/.minibootstrap"

/-- minibpFile = filepath.Join("$BinDir", "minibp"). -/
def minibpFile : String := joinPath "$BinDir" "minibp"

/-- docsDir = filepath.Join(bootstrapDir, "docs"). -/
def docsDir : String := joinPath bootstrapDir "docs"

/-- Modelled from the spec: the three ordered build stages.  The `Stage`
type and its constants `StageBootstrap`, `StagePrimary`, `StageMain` are
declared outside the provided source file; only the three-valued enumeration
is needed here. -/
inductive Stage where
  | bootstrap
  | primary
  | main
deriving DecidableEq, Repr

/-- Modelled from the spec: the fields of the bootstrap `Config` that the
provided source reads (the type itself is declared outside the provided
source file): the currently active stage, whether Go tests are run, and the
path of the top-level Blueprints file. -/
structure Config where
  stage : Stage
  runGoTests : Bool
  topLevelBlueprintsFile : String
deriving DecidableEq, Repr

/-- The goPackage module: declared properties plus the derived fields filled
in by GenerateBuildActions.  The factory leaves the derived path fields at
their zero values and sets the build stage to StagePrimary. -/
structure GoPackage where
  pkgPath : String
  srcs : List String
  testSrcs : List String
  plugin : Bool
  pkgRoot : String := ""
  archiveFile : String := ""
  testArchiveFile : String := ""
  buildStage : Stage := Stage.primary
deriving DecidableEq, Repr

/-- The goBinary module: declared properties plus the derived test-archive
field filled in by GenerateBuildActions. -/
structure GoBinary where
  srcs : List String
  testSrcs : List String
  primaryBuilder : Bool
  testArchiveFile : String := ""
  buildStage : Stage
deriving DecidableEq, Repr

/-- A blueprint module as seen by the bootstrap passes: a goPackage, a
goBinary, or some other module type that exposes none of the bootstrap
capabilities (in particular not bootstrapGoCore). -/
inductive BpModule where
  | pkg (g : GoPackage)
  | bin (g : GoBinary)
  | other
deriving DecidableEq, Repr

/-- The bootstrapGoCore BuildStage capability: goPackage and goBinary expose
a build stage, other modules do not. -/
def BpModule.stageOf : BpModule → Option Stage
  | .pkg g => some g.buildStage
  | .bin g => some g.buildStage
  | .other => none

/-- The bootstrapGoCore SetBuildStage capability: a no-op on modules that do
not expose it. -/
def BpModule.setStage : BpModule → Stage → BpModule
  | .pkg g, s => .pkg { g with buildStage := s }
  | .bin g, s => .bin { g with buildStage := s }
  | .other, _ => .other

/-- The goPackageProducer capability: only goPackage implements GoPkgRoot
and GoPackageTarget, so visiting dependencies with isGoPackageProducer
selects exactly the goPackage dependencies. -/
def goPackageProducers (deps : List BpModule) : List GoPackage :=
  deps.filterMap (fun m =>
    match m with
    | .pkg g => some g
    | _ => none)

/-- The goPluginProvider capability filtered by IsPlugin(): only goPackage
implements GoPkgPath and IsPlugin. -/
def goPlugins (deps : List BpModule) : List GoPackage :=
  (goPackageProducers deps).filter (fun g => g.plugin)

/-- The goTestProducer capability: goPackage and goBinary expose a test
target and a build stage. -/
def goTestProducerInfo : BpModule → Option (String × Stage)
  | .pkg g => some (g.testArchiveFile, g.buildStage)
  | .bin g => some (g.testArchiveFile, g.buildStage)
  | .other => none

/-- The pieces of blueprint.ModuleContext that the generators read: the
module name, the module directory, and the dependency modules as delivered
by VisitDepsDepthFirstIf (already in depth-first visit order). -/
structure ModuleCtx where
  moduleName : String
  moduleDir : String
  depsDepthFirst : List BpModule
deriving DecidableEq, Repr

/-- moduleSrcDir: the directory that all source paths of the module are
relative to. -/
def moduleSrcDir (ctx : ModuleCtx) : String :=
  joinPath "$srcDir" ctx.moduleDir

/-- moduleObjDir: the module-specific object directory. -/
def moduleObjDir (ctx : ModuleCtx) : String :=
  joinPath (joinPath bootstrapDir ctx.moduleName) "obj"

/-- packageRoot: the module-specific package root directory. -/
def packageRoot (ctx : ModuleCtx) : String :=
  joinPath (joinPath bootstrapDir ctx.moduleName) "pkg"

/-- testRoot: the module-specific test package root directory. -/
def testRoot (ctx : ModuleCtx) : String :=
  joinPath (joinPath bootstrapDir ctx.moduleName) "test"

/-- The build rules referenced by the emitted actions.  Static rules are
plain constructors; the rules created inline by the singleton carry their
fully substituted command string. -/
inductive Rule where
  | compile
  | link
  | goTestMain
  | pluginGenSrc
  | test
  | cp
  | chooseStage
  | touch
  | phony
  | builtinPhony
  | bootstrap
  | primarybp (command : String)
  | minibp (command : String)
  | bigbp (command : String)
  | bigbpDocs (command : String)
deriving DecidableEq, Repr

/-- blueprint.BuildParams as passed to ctx.Build: the rule, the declared
outputs, inputs, implicit dependencies, order-only dependencies, and the
argument map (kept as an association list in insertion order). -/
structure BuildParams where
  rule : Rule
  outputs : List String
  inputs : List String := []
  implicits : List String := []
  orderOnly : List String := []
  args : List (String × String) := []
deriving DecidableEq, Repr

/-- buildGoPackage: emits the one compile action producing the archive from
the source-root-prefixed sources plus generated sources, with include flags
and implicit archive dependencies taken from the goPackageProducer
dependencies, and the given order-only dependencies. -/
def buildGoPackage (ctx : ModuleCtx) (pkgRootDir pkgPath archiveFile : String)
    (srcs genSrcs orderDeps : List String) : List BuildParams :=
  let srcDir := moduleSrcDir ctx
  let srcFiles := prefixPaths srcs srcDir ++ genSrcs
  let prods := goPackageProducers ctx.depsDepthFirst
  let incFlags := prods.map (fun d => "-I " ++ d.pkgRoot)
  let deps := "$compileCmd" :: prods.map (fun d => d.archiveFile)
  let compileArgs :=
    ("pkgPath", pkgPath) ::
      (if incFlags.isEmpty then []
       else [("incFlags", String.intercalate " " incFlags)])
  [{ rule := Rule.compile, outputs := [archiveFile], inputs := srcFiles,
     orderOnly := orderDeps, implicits := deps, args := compileArgs }]

/-- buildGoTest: when test sources exist, emits the combined test-archive
compile, the test-main generation, the test-main compile, the test link,
and the test run, and returns the emitted actions together with the list of
dependencies handed back to the caller (the test.passed sentinel). -/
def buildGoTest (ctx : ModuleCtx) (testRootDir testPkgArchive pkgPath : String)
    (srcs genSrcs testSrcs : List String) : List BuildParams × List String :=
  match testSrcs with
  | [] => ([], [])
  | t0 :: _ =>
    let srcDir := moduleSrcDir ctx
    let testFiles := prefixPaths testSrcs srcDir
    let mainFile := joinPath testRootDir "test.go"
    let testArchive := joinPath testRootDir "test.a"
    let testFile := joinPath testRootDir "test"
    let testPassed := joinPath testRootDir "test.passed"
    let libDirFlags := ("-L " ++ testRootDir) ::
      (goPackageProducers ctx.depsDepthFirst).map (fun d => "-L " ++ d.pkgRoot)
    (buildGoPackage ctx testRootDir pkgPath testPkgArchive
        (srcs ++ testSrcs) genSrcs [] ++
      [{ rule := Rule.goTestMain, outputs := [mainFile], inputs := testFiles,
         implicits := ["$goTestMainCmd"], args := [("pkg", pkgPath)] },
       { rule := Rule.compile, outputs := [testArchive], inputs := [mainFile],
         implicits := ["$compileCmd", testPkgArchive],
         args := [("pkgPath", "main"), ("incFlags", "-I " ++ testRootDir)] },
       { rule := Rule.link, outputs := [testFile], inputs := [testArchive],
         implicits := ["$linkCmd"],
         args := [("libDirFlags", String.intercalate " " libDirFlags)] },
       { rule := Rule.test, outputs := [testPassed], inputs := [testFile],
         args := [("pkg", pkgPath),
                  ("pkgSrcDir", dirOf (joinPath srcDir t0))] }],
     [testPassed])

/-- phonyGoTarget: emits the placeholder action for the target (inputs are
the module-dir-prefixed sources plus generated sources, implicits are the
dependency archives), one built-in phony marker per input file, and one
built-in phony marker per intermediate artifact. -/
def phonyGoTarget (ctx : ModuleCtx) (target : String)
    (srcs gensrcs intermediates : List String) : List BuildParams :=
  let depTargets := (goPackageProducers ctx.depsDepthFirst).map
    (fun d => d.archiveFile)
  let srcs1 := prefixPaths srcs (joinPath "$srcDir" ctx.moduleDir) ++ gensrcs
  { rule := Rule.phony, outputs := [target], inputs := srcs1,
    implicits := depTargets } ::
    (srcs1.map (fun s => { rule := Rule.builtinPhony, outputs := [s] }) ++
      intermediates.map (fun f => { rule := Rule.builtinPhony, outputs := [f] }))

/-- The outcome of goPackage.GenerateBuildActions: the mutated module, the
errors reported through the module error channel, and the emitted actions. -/
structure PkgGenResult where
  module : GoPackage
  errors : List String
  actions : List BuildParams
deriving DecidableEq, Repr

/-- goPackage.GenerateBuildActions: validates the package path, fills in the
derived path fields, and dispatches on (active stage, module stage). -/
def goPackageGenerateBuildActions (config : Config) (ctx : ModuleCtx)
    (g : GoPackage) : PkgGenResult :=
  let name := ctx.moduleName
  if g.pkgPath = "" then
    { module := g,
      errors := ["module " ++ name ++ " did not specify a valid pkgPath"],
      actions := [] }
  else
    let pkgRootDir := packageRoot ctx
    let archiveFile := joinPath pkgRootDir (g.pkgPath ++ ".a")
    let testArchiveFile :=
      if g.testSrcs ≠ [] ∧ config.runGoTests then
        joinPath (testRoot ctx) (g.pkgPath ++ ".a")
      else g.testArchiveFile
    let g1 : GoPackage :=
      { g with pkgRoot := pkgRootDir, archiveFile := archiveFile,
               testArchiveFile := testArchiveFile }
    if config.stage = g.buildStage then
      let testPart :=
        if config.runGoTests then
          buildGoTest ctx (testRoot ctx) testArchiveFile g.pkgPath g.srcs []
            g.testSrcs
        else ([], [])
      { module := g1, errors := [],
        actions := testPart.1 ++
          buildGoPackage ctx pkgRootDir g.pkgPath archiveFile g.srcs []
            testPart.2 }
    else if config.stage ≠ Stage.bootstrap then
      { module := g1, errors := [],
        actions :=
          (if g.testSrcs ≠ [] ∧ config.runGoTests then
            phonyGoTarget ctx testArchiveFile g.testSrcs [] []
          else []) ++
          phonyGoTarget ctx archiveFile g.srcs [] [] }
    else
      { module := g1, errors := [], actions := [] }

/-- The outcome of goBinary.GenerateBuildActions. -/
structure BinGenResult where
  module : GoBinary
  actions : List BuildParams
deriving DecidableEq, Repr

/-- goBinary.DynamicDependencies: the primary builder depends on the
process-wide plugin list, other binaries on nothing. -/
def goBinaryDynamicDependencies (primaryBuilderPlugins : List String)
    (g : GoBinary) : List String :=
  if g.primaryBuilder then primaryBuilderPlugins else []

/-- goBinary.GenerateBuildActions: computes the object paths, optionally the
plugin registration source, and dispatches on (active stage, module stage)
just like goPackage. -/
def goBinaryGenerateBuildActions (config : Config)
    (primaryBuilderPlugins : List String) (ctx : ModuleCtx)
    (g : GoBinary) : BinGenResult :=
  let name := ctx.moduleName
  let objDir := moduleObjDir ctx
  let archiveFile := joinPath objDir (name ++ ".a")
  let aoutFile := joinPath objDir "a.out"
  let binaryFile := joinPath "$BinDir" name
  let pluginSrc :=
    if g.primaryBuilder ∧ primaryBuilderPlugins ≠ [] then
      joinPath objDir "plugin.go"
    else ""
  let genSrcs : List String :=
    if g.primaryBuilder ∧ primaryBuilderPlugins ≠ [] then [pluginSrc] else []
  let testArchiveFile :=
    if g.testSrcs ≠ [] ∧ config.runGoTests then
      joinPath (testRoot ctx) (name ++ ".a")
    else g.testArchiveFile
  let g1 : GoBinary := { g with testArchiveFile := testArchiveFile }
  if config.stage = g.buildStage then
    let pluginActions : List BuildParams :=
      if g.primaryBuilder ∧ primaryBuilderPlugins ≠ [] then
        [{ rule := Rule.pluginGenSrc, outputs := [pluginSrc],
           implicits := ["$pluginGenSrcCmd"],
           args := [("plugins", String.intercalate " "
             ((goPlugins ctx.depsDepthFirst).map (fun p => p.pkgPath)))] }]
      else []
    let testPart :=
      if config.runGoTests then
        buildGoTest ctx (testRoot ctx) testArchiveFile name g.srcs genSrcs
          g.testSrcs
      else ([], [])
    let libDirFlags := (goPackageProducers ctx.depsDepthFirst).map
      (fun d => "-L " ++ d.pkgRoot)
    let linkArgs :=
      if libDirFlags.isEmpty then []
      else [("libDirFlags", String.intercalate " " libDirFlags)]
    { module := g1,
      actions := pluginActions ++ testPart.1 ++
        buildGoPackage ctx objDir name archiveFile g.srcs genSrcs testPart.2 ++
        [{ rule := Rule.link, outputs := [aoutFile], inputs := [archiveFile],
           implicits := ["$linkCmd"], args := linkArgs },
         { rule := Rule.cp, outputs := [binaryFile], inputs := [aoutFile] }] }
  else if config.stage ≠ Stage.bootstrap then
    { module := g1,
      actions :=
        (if g.testSrcs ≠ [] ∧ config.runGoTests then
          phonyGoTarget ctx testArchiveFile g.testSrcs [] []
        else []) ++
        phonyGoTarget ctx binaryFile g.srcs genSrcs [aoutFile, archiveFile] }
  else
    { module := g1, actions := [] }

/-- The outcome of generating one module of any kind. -/
structure ModGenResult where
  module : BpModule
  errors : List String
  actions : List BuildParams
deriving DecidableEq, Repr

/-- Per-module dispatch of GenerateBuildActions over the module kinds. -/
def moduleGenerate (config : Config) (primaryBuilderPlugins : List String)
    (ctx : ModuleCtx) (m : BpModule) : ModGenResult :=
  match m with
  | .pkg g =>
    let r := goPackageGenerateBuildActions config ctx g
    { module := .pkg r.module, errors := r.errors, actions := r.actions }
  | .bin g =>
    let r := goBinaryGenerateBuildActions config primaryBuilderPlugins ctx g
    { module := .bin r.module, errors := [], actions := r.actions }
  | .other => { module := .other, errors := [], actions := [] }

/-- The per-module generation pass over the whole graph: every module is
generated independently from its own context and state. -/
def generateAll (config : Config) (primaryBuilderPlugins : List String)
    (mods : List (ModuleCtx × BpModule)) : List ModGenResult :=
  mods.map (fun p => moduleGenerate config primaryBuilderPlugins p.1 p.2)

/-- primaryBuilderPluginFinder applied to one module: appends the module
NAME to the accumulator when the module is a plugin-flagged goPackage. -/
def primaryBuilderPluginFinder (acc : List String) (name : String)
    (m : BpModule) : List String :=
  match m with
  | .pkg g => if g.plugin then acc ++ [name] else acc
  | _ => acc

/-- The graph-wide plugin-discovery pass in traversal order. -/
def collectPrimaryBuilderPlugins (mods : List (String × BpModule)) :
    List String :=
  mods.foldl (fun acc p => primaryBuilderPluginFinder acc p.1 p.2) []

/-- propagateStageBootstrap applied at module i: when module i exposes a
stage and that stage is Bootstrap, every direct dependency that exposes the
stage capability is set to Bootstrap; other dependencies are left alone. -/
def propagateStageBootstrapAt {n : Nat} (deps : Fin n → List (Fin n))
    (i : Fin n) (st : Fin n → BpModule) : Fin n → BpModule :=
  if (st i).stageOf = some Stage.bootstrap then
    fun j => if j ∈ deps i then (st j).setStage Stage.bootstrap else st j
  else st

/-- The TopDownMutator pass: the mutator body is applied at each module in
the order the graph engine visits them, threading the mutated state. -/
def runPropagation {n : Nat} (deps : Fin n → List (Fin n))
    (order : List (Fin n)) (st : Fin n → BpModule) : Fin n → BpModule :=
  match order with
  | [] => st
  | i :: rest => runPropagation deps rest (propagateStageBootstrapAt deps i st)

/-- The outcome of singleton.GenerateBuildActions: the errors reported, the
chosen primary builder name (the Go local variable; left at its zero value
when the function returns early on error), and the emitted actions. -/
structure SingletonResult where
  errors : List String
  primaryBuilderName : String
  actions : List BuildParams
deriving DecidableEq, Repr

/-- VisitAllModulesIf(isBootstrapBinaryModule): the goBinary modules of the
graph, with their names, in visit order. -/
def bootstrapBinaries (mods : List (String × BpModule)) :
    List (String × GoBinary) :=
  mods.filterMap (fun p =>
    match p.2 with
    | .bin g => some (p.1, g)
    | _ => none)

/-- The binaries flagged as primary builder, in visit order. -/
def primaryBuildersOf (mods : List (String × BpModule)) :
    List (String × GoBinary) :=
  (bootstrapBinaries mods).filter (fun p => p.2.primaryBuilder)

/-- The part of singleton.GenerateBuildActions after the primary-builder
switch has picked a builder name and extra flags: assembles the dependency
lists and emits the stage-specific wiring followed by the terminal
manifest-producing action. -/
def singletonTail (config : Config) (mods : List (String × BpModule))
    (primaryBuilderName extraFlags0 : String)
    (reboot0 primary0 : List String) : SingletonResult :=
  let primaryBuilderFile := joinPath "$BinDir" primaryBuilderName
  let primaryBuilderExtraFlags :=
    if config.runGoTests then extraFlags0 ++ " -t" else extraFlags0
  let topLevelBlueprints :=
    joinPath "$srcDir" (baseOf config.topLevelBlueprintsFile)
  let mainNinjaFile := joinPath bootstrapDir "main.ninja.in"
  let mainNinjaTimestampFile := mainNinjaFile ++ ".timestamp"
  let mainNinjaTimestampDepFile := mainNinjaTimestampFile ++ ".d"
  let primaryBuilderNinjaFile := joinPath bootstrapDir "primary.ninja.in"
  let primaryBuilderNinjaTimestampFile := primaryBuilderNinjaFile ++ ".timestamp"
  let primaryBuilderNinjaTimestampDepFile :=
    primaryBuilderNinjaTimestampFile ++ ".d"
  let bootstrapNinjaFile := joinPath bootstrapDir "bootstrap.ninja.in"
  let docsFile := joinPath docsDir (primaryBuilderName ++ ".html")
  let rebootstrapDeps := (reboot0 ++ [topLevelBlueprints]) ++
    mods.filterMap (fun p =>
      match goTestProducerInfo p.2 with
      | some (t, s) =>
        if t ≠ "" ∧ s = Stage.bootstrap then some t else none
      | none => none)
  let primaryRebootstrapDeps := ((primary0 ++ [topLevelBlueprints]) ++
      [docsFile]) ++
    mods.filterMap (fun p =>
      match goTestProducerInfo p.2 with
      | some (t, s) =>
        if t ≠ "" ∧ s ≠ Stage.bootstrap then some t else none
      | none => none)
  let notAFile := joinPath bootstrapDir "notAFile"
  let stageActions : List BuildParams :=
    match config.stage with
    | Stage.bootstrap =>
      [{ rule := Rule.primarybp (minibpFile ++
           " --build-primary $runTests -m $bootstrapManifest" ++
           " --timestamp $timestamp --timestampdep $timestampdep" ++
           " -b $buildDir -d $outfile.d -o $outfile $in"),
         outputs := [primaryBuilderNinjaFile,
                     primaryBuilderNinjaTimestampFile],
         inputs := [topLevelBlueprints], implicits := rebootstrapDeps,
         args := [("outfile", primaryBuilderNinjaFile),
                  ("timestamp", primaryBuilderNinjaTimestampFile),
                  ("timestampdep", primaryBuilderNinjaTimestampDepFile)] ++
           (if config.runGoTests then [("runTests", "-t")] else []) },
       { rule := Rule.minibp (minibpFile ++
           " $runTests -m $bootstrapManifest -b $buildDir -d $out.d" ++
           " -o $out $in"),
         outputs := [bootstrapNinjaFile], inputs := [topLevelBlueprints],
         implicits := ["$bootstrapManifest", minibpFile],
         args := if config.runGoTests then [("runTests", "-t")] else [] },
       { rule := Rule.builtinPhony, outputs := [notAFile] },
       { rule := Rule.chooseStage,
         outputs := [joinPath bootstrapDir "build.ninja.in"],
         inputs := [bootstrapNinjaFile, primaryBuilderNinjaFile],
         implicits := ["$chooseStageCmd", "$bootstrapManifest", notAFile],
         args := [("current", bootstrapNinjaFile)] }]
    | Stage.primary =>
      [{ rule := Rule.bigbp (primaryBuilderFile ++ " " ++
           primaryBuilderExtraFlags ++ " -m $bootstrapManifest" ++
           " --timestamp $timestamp --timestampdep $timestampdep" ++
           " -b $buildDir -d $outfile.d -o $outfile $in"),
         outputs := [mainNinjaFile, mainNinjaTimestampFile],
         inputs := [topLevelBlueprints],
         implicits := primaryRebootstrapDeps,
         args := [("timestamp", mainNinjaTimestampFile),
                  ("timestampdep", mainNinjaTimestampDepFile),
                  ("outfile", mainNinjaFile)] },
       { rule := Rule.bigbpDocs (primaryBuilderFile ++ " " ++
           primaryBuilderExtraFlags ++ " -b $buildDir --docs $out " ++
           topLevelBlueprints),
         outputs := [docsFile], implicits := [primaryBuilderFile] },
       { rule := Rule.touch, outputs := [primaryBuilderNinjaTimestampFile],
         implicits := rebootstrapDeps,
         args := [("depfile", primaryBuilderNinjaTimestampDepFile),
                  ("generator", "true")] },
       { rule := Rule.builtinPhony, outputs := [notAFile] },
       { rule := Rule.chooseStage,
         outputs := [joinPath bootstrapDir "build.ninja.in"],
         inputs := [bootstrapNinjaFile, primaryBuilderNinjaFile,
                    mainNinjaFile],
         implicits := ["$chooseStageCmd", "$bootstrapManifest", notAFile,
                       primaryBuilderNinjaTimestampFile],
         args := [("current", primaryBuilderNinjaFile)] },
       { rule := Rule.builtinPhony, outputs := [bootstrapNinjaFile] }]
    | Stage.main =>
      [{ rule := Rule.touch, outputs := [primaryBuilderNinjaTimestampFile],
         implicits := rebootstrapDeps,
         args := [("depfile", primaryBuilderNinjaTimestampDepFile),
                  ("generator", "true")] },
       { rule := Rule.touch, outputs := [mainNinjaTimestampFile],
         implicits := primaryRebootstrapDeps,
         args := [("depfile", mainNinjaTimestampDepFile),
                  ("generator", "true")] },
       { rule := Rule.chooseStage,
         outputs := [joinPath bootstrapDir "build.ninja.in"],
         inputs := [bootstrapNinjaFile, primaryBuilderNinjaFile,
                    mainNinjaFile],
         implicits := ["$chooseStageCmd", "$bootstrapManifest",
                       primaryBuilderNinjaTimestampFile,
                       mainNinjaTimestampFile],
         args := [("current", mainNinjaFile), ("generator", "true")] },
       { rule := Rule.builtinPhony,
         outputs := [mainNinjaFile, docsFile] }] ++
      (if primaryBuilderName = "minibp" then
        [{ rule := Rule.cp,
           outputs := [joinPath (joinPath "$buildDir" "bin")
             primaryBuilderName],
           inputs := [primaryBuilderFile] }]
      else [])
  { errors := [], primaryBuilderName := primaryBuilderName,
    actions := stageActions ++
      [{ rule := Rule.bootstrap, outputs := ["$buildDir/build.ninja"],
         inputs := [joinPath bootstrapDir "build.ninja.in"],
         implicits := ["$bootstrapCmd"] }] }

/-- singleton.GenerateBuildActions: partitions the binaries by stage, runs
the primary-builder switch, and on success emits the stage wiring and the
terminal manifest-producing action; with two or more primary builders it
reports a configuration error naming every offender and emits nothing. -/
def singletonGenerateBuildActions (config : Config)
    (mods : List (String × BpModule)) : SingletonResult :=
  let binaries := bootstrapBinaries mods
  let reboot0 := (binaries.filter
      (fun p => p.2.buildStage == Stage.bootstrap)).map
    (fun p => joinPath "$BinDir" p.1)
  let primary0 := (binaries.filter
      (fun p => !(p.2.buildStage == Stage.bootstrap))).map
    (fun p => joinPath "$BinDir" p.1)
  match primaryBuildersOf mods with
  | [] => singletonTail config mods "minibp" "-p" reboot0 primary0
  | [b] => singletonTail config mods b.1 "" reboot0 primary0
  | b1 :: b2 :: rest =>
    { errors := "multiple primary builder modules present:" ::
        (b1 :: b2 :: rest).map (fun p => "<-- module " ++ p.1),
      primaryBuilderName := "",
      actions := [] }

/-- Transitive dependency, one or more dependency edges. -/
inductive Reaches {n : Nat} (deps : Fin n → List (Fin n)) :
    Fin n → Fin n → Prop where
  | direct {i j : Fin n} : j ∈ deps i → Reaches deps i j
  | step {i j k : Fin n} : j ∈ deps i → Reaches deps j k → Reaches deps i k

/-- Transitive dependency along a chain on which every visited module
satisfies the capability predicate. -/
inductive ReachesCap {n : Nat} (deps : Fin n → List (Fin n))
    (cap : Fin n → Prop) : Fin n → Fin n → Prop where
  | direct {i j : Fin n} : j ∈ deps i → cap j → ReachesCap deps cap i j
  | step {i j k : Fin n} : j ∈ deps i → cap j → ReachesCap deps cap j k →
      ReachesCap deps cap i k

/-! Concrete module graphs used to evaluate the definitions. -/

/-- A three-module graph: module 0 is a Bootstrap-stage binary, module 1 is
a module without the stage capability, module 2 is a Primary-stage package;
0 depends on 1 and 1 depends on 2. -/
def chainSt : Fin 3 → BpModule := fun i =>
  if i = 0 then
    BpModule.bin { srcs := [], testSrcs := [], primaryBuilder := false,
                   buildStage := Stage.bootstrap }
  else if i = 1 then BpModule.other
  else
    BpModule.pkg { pkgPath := "p", srcs := [], testSrcs := [],
                   plugin := false, buildStage := Stage.primary }

/-- Dependency edges of the three-module graph. -/
def chainDeps : Fin 3 → List (Fin 3) := fun i =>
  if i = 0 then [1] else if i = 1 then [2] else []

/-- A two-module graph in which both modules expose the stage capability: a
Bootstrap-stage binary depending directly on a Primary-stage package. -/
def pairSt : Fin 2 → BpModule := fun i =>
  if i = 0 then
    BpModule.bin { srcs := [], testSrcs := [], primaryBuilder := false,
                   buildStage := Stage.bootstrap }
  else
    BpModule.pkg { pkgPath := "q", srcs := [], testSrcs := [],
                   plugin := false, buildStage := Stage.primary }

/-- Dependency edges of the two-module graph. -/
def pairDeps : Fin 2 → List (Fin 2) := fun i => if i = 0 then [1] else []

/-- A concrete dependency package with its derived fields filled in as
generation would leave them. -/
def depPkgW : GoPackage :=
  { pkgPath := "dep/pkg", srcs := ["d.go"], testSrcs := [],
    plugin := false, pkgRoot := "$buildDir/.bootstrap/dep/pkg",
    archiveFile := "$buildDir/.bootstrap/dep/pkg/dep/pkg.a" }

/-- A concrete module context for a tested package with one dependency. -/
def ctxW : ModuleCtx := ⟨"tm", "tm", [BpModule.pkg depPkgW]⟩

/-- A concrete package with one implementation source and one test
source. -/
def pkgW : GoPackage :=
  { pkgPath := "t/pkg", srcs := ["t.go"], testSrcs := ["t_x.go"],
    plugin := false, buildStage := Stage.primary }

/-- A concrete binary flagged as primary builder. -/
def binPBW : GoBinary :=
  { srcs := ["m.go"], testSrcs := [], primaryBuilder := true,
    buildStage := Stage.primary }

/-- A module graph containing two primary-builder binaries. -/
def modsTwoW : List (String × BpModule) :=
  [("a", BpModule.bin binPBW), ("b", BpModule.bin binPBW)]

/-- A module graph containing no primary-builder binary. -/
def modsZeroW : List (String × BpModule) :=
  [("solo", BpModule.bin { srcs := ["m.go"], testSrcs := [],
                           primaryBuilder := false,
                           buildStage := Stage.bootstrap })]

/-- A concrete configuration for exercising the singleton. -/
def cfgW : Config := ⟨Stage.main, false, "Blueprints"⟩

/-! Helper lemmas about the stage-propagation pass. -/

lemma stageOf_setStage (m : BpModule) (s : Stage) :
    (m.setStage s).stageOf = if m.stageOf.isSome then some s else none := by
  cases m <;> simp [BpModule.setStage, BpModule.stageOf]

lemma stageOf_eq_none_iff (m : BpModule) :
    m.stageOf = none ↔ m = BpModule.other := by
  cases m <;> simp [BpModule.stageOf]

lemma propagateAt_apply_not_dep {n : Nat} (deps : Fin n → List (Fin n))
    (k j : Fin n) (st : Fin n → BpModule) (h : j ∉ deps k) :
    propagateStageBootstrapAt deps k st j = st j := by
  unfold propagateStageBootstrapAt
  split
  · simp [h]
  · rfl

lemma runPropagation_apply_of_forall {n : Nat} (deps : Fin n → List (Fin n))
    (j : Fin n) :
    ∀ (l : List (Fin n)) (st : Fin n → BpModule), (∀ k ∈ l, j ∉ deps k) →
      runPropagation deps l st j = st j := by
  intro l
  induction l with
  | nil => intro st _; rfl
  | cons k rest ih =>
    intro st h
    have h1 : j ∉ deps k := h k (List.mem_cons_self k rest)
    have h2 := ih (propagateStageBootstrapAt deps k st)
      (fun x hx => h x (List.mem_cons_of_mem _ hx))
    rw [runPropagation, h2, propagateAt_apply_not_dep deps k j st h1]

lemma propagateAt_mono {n : Nat} (deps : Fin n → List (Fin n)) (k j : Fin n)
    (st : Fin n → BpModule)
    (h : (st j).stageOf = some Stage.bootstrap) :
    ((propagateStageBootstrapAt deps k st) j).stageOf = some Stage.bootstrap := by
  unfold propagateStageBootstrapAt
  split
  · by_cases hj : j ∈ deps k
    · simp [hj, stageOf_setStage, h]
    · simp [hj, h]
  · exact h

lemma runPropagation_mono {n : Nat} (deps : Fin n → List (Fin n)) (j : Fin n) :
    ∀ (l : List (Fin n)) (st : Fin n → BpModule),
      (st j).stageOf = some Stage.bootstrap →
      ((runPropagation deps l st) j).stageOf = some Stage.bootstrap := by
  intro l
  induction l with
  | nil => intro st h; exact h
  | cons k rest ih =>
    intro st h
    rw [runPropagation]
    exact ih _ (propagateAt_mono deps k j st h)

lemma propagateAt_self_bootstrap {n : Nat} (deps : Fin n → List (Fin n))
    (i : Fin n) (st : Fin n → BpModule) :
    ((propagateStageBootstrapAt deps i st) i).stageOf = some Stage.bootstrap ↔
      (st i).stageOf = some Stage.bootstrap := by
  unfold propagateStageBootstrapAt
  split
  case isTrue h =>
    by_cases hi : i ∈ deps i
    · simp [hi, stageOf_setStage, h]
    · simp [hi, h]
  case isFalse h => rfl

lemma propagateAt_sets_dep {n : Nat} (deps : Fin n → List (Fin n))
    (i j : Fin n) (st : Fin n → BpModule)
    (hb : (st i).stageOf = some Stage.bootstrap) (hj : j ∈ deps i)
    (hcap : ((st j).stageOf).isSome = true) :
    ((propagateStageBootstrapAt deps i st) j).stageOf = some Stage.bootstrap := by
  unfold propagateStageBootstrapAt
  rw [if_pos hb]
  simp only [hj, if_pos]
  rw [stageOf_setStage, if_pos hcap]

lemma propagateAt_cap {n : Nat} (deps : Fin n → List (Fin n)) (k j : Fin n)
    (st : Fin n → BpModule) :
    (((propagateStageBootstrapAt deps k st) j).stageOf).isSome =
      ((st j).stageOf).isSome := by
  unfold propagateStageBootstrapAt
  split
  · by_cases hj : j ∈ deps k
    · simp only [hj, if_pos]
      rw [stageOf_setStage]
      cases h : ((st j).stageOf).isSome <;> simp [h]
    · simp [hj]
  · rfl

lemma runPropagation_direct {n : Nat} (deps : Fin n → List (Fin n)) :
    ∀ (order : List (Fin n)) (st : Fin n → BpModule),
      order.Pairwise (fun a b => a ∉ deps b) →
      ∀ i j : Fin n, i ∈ order → j ∈ deps i →
      ((st j).stageOf).isSome = true →
      ((runPropagation deps order st) i).stageOf = some Stage.bootstrap →
      ((runPropagation deps order st) j).stageOf = some Stage.bootstrap := by
  intro order
  induction order with
  | nil =>
    intro st _ i j hi
    cases hi
  | cons k rest ih =>
    intro st hpw i j hi hdep hcap hfin
    have hpw1 : ∀ b ∈ rest, k ∉ deps b := (List.pairwise_cons.mp hpw).1
    have hpwrest := (List.pairwise_cons.mp hpw).2
    rcases List.mem_cons.mp hi with rfl | hi'
    · have hstable :
          (runPropagation deps rest (propagateStageBootstrapAt deps i st)) i =
            (propagateStageBootstrapAt deps i st) i :=
        runPropagation_apply_of_forall deps i rest _ hpw1
      rw [runPropagation] at hfin
      rw [hstable] at hfin
      have hk : (st i).stageOf = some Stage.bootstrap :=
        (propagateAt_self_bootstrap deps i st).mp hfin
      have hset :
          ((propagateStageBootstrapAt deps i st) j).stageOf =
            some Stage.bootstrap :=
        propagateAt_sets_dep deps i j st hk hdep hcap
      rw [runPropagation]
      exact runPropagation_mono deps j rest _ hset
    · rw [runPropagation] at hfin ⊢
      refine ih _ hpwrest i j hi' hdep ?_ hfin
      rw [propagateAt_cap]
      exact hcap

lemma runPropagation_skips_other {n : Nat} (deps : Fin n → List (Fin n))
    (k : Fin n) :
    ∀ (l : List (Fin n)) (st : Fin n → BpModule),
      st k = BpModule.other → runPropagation deps l st k = st k := by
  intro l
  induction l with
  | nil => intro st _; rfl
  | cons m rest ih =>
    intro st h
    rw [runPropagation]
    have hstep : propagateStageBootstrapAt deps m st k = st k := by
      unfold propagateStageBootstrapAt
      split
      · by_cases hk : k ∈ deps m
        · simp [hk, h, BpModule.setStage]
        · simp [hk]
      · rfl
    rw [ih _ (by rw [hstep]; exact h), hstep]

/-- C2 (amended): when the top-down propagation pass visits the modules in
an order in which every dependent precedes its dependencies, it sets the
stage of every stage-capable direct dependency of a Bootstrap-stage module
to Bootstrap, and after the pass every direct or transitive dependency of a
Bootstrap-stage module that is reachable along a chain of stage-capable
modules also has stage Bootstrap; a module without the stage capability is
skipped without error and left unchanged. -/
theorem stagePropagation_infects_capable_chains {n : Nat}
    (deps : Fin n → List (Fin n)) (st : Fin n → BpModule)
    (order : List (Fin n)) (hcomp : ∀ i, i ∈ order)
    (hpw : order.Pairwise (fun a b => a ∉ deps b)) :
    (∀ i j : Fin n,
        ReachesCap deps (fun k => ((st k).stageOf).isSome = true) i j →
        ((runPropagation deps order st) i).stageOf = some Stage.bootstrap →
        ((runPropagation deps order st) j).stageOf = some Stage.bootstrap) ∧
    (∀ k : Fin n, (st k).stageOf = none →
        runPropagation deps order st k = st k) := by
  constructor
  · intro i j hreach
    induction hreach with
    | direct hdep hcap =>
      intro hb
      exact runPropagation_direct deps order st hpw _ _ (hcomp _) hdep hcap hb
    | step hdep hcap _ ihr =>
      intro hb
      exact ihr
        (runPropagation_direct deps order st hpw _ _ (hcomp _) hdep hcap hb)
  · intro k hk
    exact runPropagation_skips_other deps k order st
      ((stageOf_eq_none_iff _).mp hk)

/-- C2 counterexample: in the three-module chain whose middle module lacks
the stage capability, module 2 is a transitive dependency of the
Bootstrap-stage module 0, the visit order is a valid top-down order, yet
after the pass module 2 still has stage Primary, not Bootstrap. -/
theorem stagePropagation_not_transitive_through_incapable :
    ([0, 1, 2] : List (Fin 3)).Pairwise (fun a b => a ∉ chainDeps b) ∧
    (∀ i : Fin 3, i ∈ ([0, 1, 2] : List (Fin 3))) ∧
    Reaches chainDeps 0 2 ∧
    ((runPropagation chainDeps [0, 1, 2] chainSt) 0).stageOf =
      some Stage.bootstrap ∧
    ((runPropagation chainDeps [0, 1, 2] chainSt) 2).stageOf =
      some Stage.primary := by
  refine ⟨by decide, by decide,
    Reaches.step (i := 0) (j := 1) (by decide)
      (Reaches.direct (by decide)), by decide, by decide⟩

/-- C2 witness: in the two-module all-capable graph the propagation theorem
applies and forces the Primary-stage dependency to Bootstrap. -/
theorem stagePropagation_infects_capable_chains_witness :
    ((runPropagation pairDeps [0, 1] pairSt) 1).stageOf =
      some Stage.bootstrap :=
  (stagePropagation_infects_capable_chains pairDeps pairSt [0, 1]
      (by decide) (by decide)).1 0 1
    (ReachesCap.direct (by decide) (by decide)) (by decide)

/-- C3: a Package module with an empty package path reports exactly the
per-module configuration error and emits no action, and the per-module
generation pass computes the result of every module from that module alone, so
sibling modules are unaffected. -/
theorem goPackage_emptyPkgPath_fails_module_only (config : Config)
    (plugins : List String) (ctx : ModuleCtx) (g : GoPackage)
    (h : g.pkgPath = "") (mods : List (ModuleCtx × BpModule)) :
    (moduleGenerate config plugins ctx (BpModule.pkg g)).errors =
      ["module " ++ ctx.moduleName ++ " did not specify a valid pkgPath"] ∧
    (moduleGenerate config plugins ctx (BpModule.pkg g)).actions = [] ∧
    ∀ k : Nat, (generateAll config plugins mods)[k]? =
      (mods[k]?).map (fun p => moduleGenerate config plugins p.1 p.2) := by
  refine ⟨?_, ?_, ?_⟩
  · simp [moduleGenerate, goPackageGenerateBuildActions, h]
  · simp [moduleGenerate, goPackageGenerateBuildActions, h]
  · intro k
    simp [generateAll, List.getElem?_map]

/-- C3 witness: a concrete empty-path package errors while a concrete
sibling has its generation result untouched. -/
theorem goPackage_emptyPkgPath_fails_module_only_witness :
    (moduleGenerate ⟨Stage.primary, false, "Blueprints"⟩ []
        ⟨"badmod", "badmod", []⟩
        (BpModule.pkg { pkgPath := "", srcs := ["a.go"], testSrcs := [],
                        plugin := false })).errors =
      ["module badmod did not specify a valid pkgPath"] ∧
    (moduleGenerate ⟨Stage.primary, false, "Blueprints"⟩ []
        ⟨"badmod", "badmod", []⟩
        (BpModule.pkg { pkgPath := "", srcs := ["a.go"], testSrcs := [],
                        plugin := false })).actions = [] ∧
    ∀ k : Nat,
      (generateAll ⟨Stage.primary, false, "Blueprints"⟩ []
        [(⟨"sib", "sib", []⟩,
          BpModule.pkg { pkgPath := "sib/pkg", srcs := ["s.go"],
                         testSrcs := [], plugin := false })])[k]? =
      ([(⟨"sib", "sib", []⟩,
          BpModule.pkg { pkgPath := "sib/pkg", srcs := ["s.go"],
                         testSrcs := [], plugin := false })][k]?).map
        (fun p => moduleGenerate ⟨Stage.primary, false, "Blueprints"⟩ []
          p.1 p.2) :=
  goPackage_emptyPkgPath_fails_module_only
    ⟨Stage.primary, false, "Blueprints"⟩ [] ⟨"badmod", "badmod", []⟩
    { pkgPath := "", srcs := ["a.go"], testSrcs := [], plugin := false }
    rfl _

/-- C9: when validation fails on an empty package path, generation returns
before computing derived fields or emitting actions: the package root,
archive path and test-archive path stay at their zero values, no action is
emitted, and the error is reported. -/
theorem goPackage_emptyPkgPath_state_unchanged (config : Config)
    (ctx : ModuleCtx) (pp : String) (srcs testSrcs : List String)
    (plugin : Bool) (stage : Stage) (h : pp = "") :
    let g : GoPackage := { pkgPath := pp, srcs := srcs, testSrcs := testSrcs,
                           plugin := plugin, buildStage := stage }
    let r := goPackageGenerateBuildActions config ctx g
    r.module.pkgRoot = "" ∧ r.module.archiveFile = "" ∧
    r.module.testArchiveFile = "" ∧ r.actions = [] ∧ r.errors ≠ [] := by
  subst h
  simp [goPackageGenerateBuildActions]

/-- C9 witness: concrete instance of the unchanged-state property. -/
theorem goPackage_emptyPkgPath_state_unchanged_witness :
    let g : GoPackage := { pkgPath := "", srcs := ["x.go"],
                           testSrcs := ["x_t.go"], plugin := false,
                           buildStage := Stage.primary }
    let r := goPackageGenerateBuildActions ⟨Stage.main, true, "bp"⟩
      ⟨"m", "m", []⟩ g
    r.module.pkgRoot = "" ∧ r.module.archiveFile = "" ∧
    r.module.testArchiveFile = "" ∧ r.actions = [] ∧ r.errors ≠ [] :=
  goPackage_emptyPkgPath_state_unchanged ⟨Stage.main, true, "bp"⟩
    ⟨"m", "m", []⟩ "" ["x.go"] ["x_t.go"] false Stage.primary rfl

lemma phonyGoTarget_rules (ctx : ModuleCtx) (target : String)
    (srcs gensrcs intermediates : List String) (a : BuildParams)
    (ha : a ∈ phonyGoTarget ctx target srcs gensrcs intermediates) :
    a.rule = Rule.phony ∨ a.rule = Rule.builtinPhony := by
  unfold phonyGoTarget at ha
  rcases List.mem_cons.mp ha with rfl | hmem
  · exact Or.inl rfl
  · rcases List.mem_append.mp hmem with h1 | h2
    · obtain ⟨s, _, rfl⟩ := List.mem_map.mp h1
      exact Or.inr rfl
    · obtain ⟨s, _, rfl⟩ := List.mem_map.mp h2
      exact Or.inr rfl

/-- C4: for a Package with a non-empty package path, emission branches
exactly three ways on the active/module stage pair: equal stages emit the
test pipeline (when testing is enabled and test sources exist) followed by
the real compile action for the archive; active stage Bootstrap with a
different module stage emits nothing; any other mismatch emits only
placeholder (phony) actions for the archive (and the test archive when
testing is enabled and test sources exist). -/
theorem goPackage_three_way_dispatch (config : Config) (ctx : ModuleCtx)
    (g : GoPackage) (h : g.pkgPath ≠ "") :
    let archive := joinPath (packageRoot ctx) (g.pkgPath ++ ".a")
    let tArchive := joinPath (testRoot ctx) (g.pkgPath ++ ".a")
    let tp : List BuildParams × List String :=
      if g.testSrcs ≠ [] ∧ config.runGoTests then
        buildGoTest ctx (testRoot ctx) tArchive g.pkgPath g.srcs [] g.testSrcs
      else ([], [])
    let r := goPackageGenerateBuildActions config ctx g
    (config.stage = g.buildStage →
      r.actions = tp.1 ++ buildGoPackage ctx (packageRoot ctx) g.pkgPath
          archive g.srcs [] tp.2 ∧
      ∃ a : BuildParams, r.actions.getLast? = some a ∧
        a.rule = Rule.compile ∧ a.outputs = [archive]) ∧
    (config.stage = Stage.bootstrap → g.buildStage ≠ Stage.bootstrap →
      r.actions = []) ∧
    (config.stage ≠ Stage.bootstrap → config.stage ≠ g.buildStage →
      r.actions =
        (if g.testSrcs ≠ [] ∧ config.runGoTests then
          phonyGoTarget ctx tArchive g.testSrcs [] []
        else []) ++ phonyGoTarget ctx archive g.srcs [] [] ∧
      ∀ a ∈ r.actions, a.rule = Rule.phony ∨ a.rule = Rule.builtinPhony) := by
  intro archive tArchive tp r
  refine ⟨?_, ?_, ?_⟩
  · intro hstage
    have heq : r.actions = tp.1 ++ buildGoPackage ctx (packageRoot ctx)
        g.pkgPath archive g.srcs [] tp.2 := by
      show (goPackageGenerateBuildActions config ctx g).actions = _
      by_cases hrt : config.runGoTests = true <;>
        by_cases hts : g.testSrcs = [] <;>
          simp [goPackageGenerateBuildActions, h, hstage, hrt, hts,
            buildGoTest, tp, tArchive, archive]
    obtain ⟨c, hc1, hc2, hc3⟩ : ∃ c : BuildParams,
        buildGoPackage ctx (packageRoot ctx) g.pkgPath archive g.srcs []
          tp.2 = [c] ∧ c.rule = Rule.compile ∧ c.outputs = [archive] :=
      ⟨_, rfl, rfl, rfl⟩
    refine ⟨heq, ⟨c, ?_, hc2, hc3⟩⟩
    rw [heq, hc1]
    exact List.getLast?_concat _
  · intro h1 h2
    have hne : ¬(Stage.bootstrap = g.buildStage) := fun hh => h2 hh.symm
    show (goPackageGenerateBuildActions config ctx g).actions = []
    simp [goPackageGenerateBuildActions, h, h1, hne]
  · intro h1 h2
    have heq : r.actions =
        (if g.testSrcs ≠ [] ∧ config.runGoTests then
          phonyGoTarget ctx tArchive g.testSrcs [] []
        else []) ++ phonyGoTarget ctx archive g.srcs [] [] := by
      show (goPackageGenerateBuildActions config ctx g).actions = _
      by_cases hrt : config.runGoTests = true <;>
        by_cases hts : g.testSrcs = [] <;>
          simp [goPackageGenerateBuildActions, h, h1, h2, hrt, hts,
            tArchive, archive]
    refine ⟨heq, ?_⟩
    intro a ha
    rw [heq] at ha
    rcases List.mem_append.mp ha with h3 | h3
    · by_cases hc : g.testSrcs ≠ [] ∧ config.runGoTests
      · rw [if_pos hc] at h3
        exact phonyGoTarget_rules _ _ _ _ _ _ h3
      · rw [if_neg hc] at h3
        cases h3
    · exact phonyGoTarget_rules _ _ _ _ _ _ h3

/-- C4 witness: a concrete Package at a mismatched non-Bootstrap stage emits
exactly the placeholder actions. -/
theorem goPackage_three_way_dispatch_witness :
    let ctx : ModuleCtx := ⟨"pkgm", "pkgm", []⟩
    let g : GoPackage := { pkgPath := "x/y", srcs := ["a.go"],
                           testSrcs := [], plugin := false,
                           buildStage := Stage.primary }
    let archive := joinPath (packageRoot ctx) (g.pkgPath ++ ".a")
    let tArchive := joinPath (testRoot ctx) (g.pkgPath ++ ".a")
    let tp : List BuildParams × List String :=
      if g.testSrcs ≠ [] ∧ (⟨Stage.main, false, "bp"⟩ : Config).runGoTests then
        buildGoTest ctx (testRoot ctx) tArchive g.pkgPath g.srcs [] g.testSrcs
      else ([], [])
    let r := goPackageGenerateBuildActions ⟨Stage.main, false, "bp"⟩ ctx g
    ((⟨Stage.main, false, "bp"⟩ : Config).stage = g.buildStage →
      r.actions = tp.1 ++ buildGoPackage ctx (packageRoot ctx) g.pkgPath
          archive g.srcs [] tp.2 ∧
      ∃ a : BuildParams, r.actions.getLast? = some a ∧
        a.rule = Rule.compile ∧ a.outputs = [archive]) ∧
    ((⟨Stage.main, false, "bp"⟩ : Config).stage = Stage.bootstrap →
      g.buildStage ≠ Stage.bootstrap → r.actions = []) ∧
    ((⟨Stage.main, false, "bp"⟩ : Config).stage ≠ Stage.bootstrap →
      (⟨Stage.main, false, "bp"⟩ : Config).stage ≠ g.buildStage →
      r.actions =
        (if g.testSrcs ≠ [] ∧
            (⟨Stage.main, false, "bp"⟩ : Config).runGoTests then
          phonyGoTarget ctx tArchive g.testSrcs [] []
        else []) ++ phonyGoTarget ctx archive g.srcs [] [] ∧
      ∀ a ∈ r.actions, a.rule = Rule.phony ∨ a.rule = Rule.builtinPhony) :=
  goPackage_three_way_dispatch ⟨Stage.main, false, "bp"⟩ ⟨"pkgm", "pkgm", []⟩
    { pkgPath := "x/y", srcs := ["a.go"], testSrcs := [], plugin := false,
      buildStage := Stage.primary } (by decide)

/-- C5 (amended): with test sources present the test pipeline emits exactly
five actions: (1) compile implementation plus test sources (and generated
sources) into the combined test archive, with the dependency archives as
implicit inputs; (2) generate the test-main source from the test sources
and the package identity; (3) compile the test-main into its own archive
with the combined test archive as an implicit input and the test root as
include path; (4) link it into the test executable with library search
flags for the test root and every dependency package root; (5) run the
executable with working directory equal to the directory of the first
prefixed test source (which equals the module source directory only when
that source has no directory component), producing the test.passed
sentinel; the pipeline returns the sentinel, not the executable, as the
dependency edge exposed to the caller. -/
theorem buildGoTest_pipeline (ctx : ModuleCtx)
    (testRootDir testPkgArchive pkgPath : String)
    (srcs genSrcs : List String) (t0 : String) (ts : List String) :
    buildGoTest ctx testRootDir testPkgArchive pkgPath srcs genSrcs
        (t0 :: ts) =
      ([{ rule := Rule.compile, outputs := [testPkgArchive],
          inputs := prefixPaths (srcs ++ t0 :: ts) (moduleSrcDir ctx) ++
            genSrcs,
          orderOnly := [],
          implicits := "$compileCmd" ::
            (goPackageProducers ctx.depsDepthFirst).map
              (fun d => d.archiveFile),
          args := ("pkgPath", pkgPath) ::
            (if ((goPackageProducers ctx.depsDepthFirst).map
                (fun d => "-I " ++ d.pkgRoot)).isEmpty then []
             else [("incFlags", String.intercalate " "
               ((goPackageProducers ctx.depsDepthFirst).map
                 (fun d => "-I " ++ d.pkgRoot)))]) },
        { rule := Rule.goTestMain,
          outputs := [joinPath testRootDir "test.go"],
          inputs := prefixPaths (t0 :: ts) (moduleSrcDir ctx),
          implicits := ["$goTestMainCmd"], args := [("pkg", pkgPath)] },
        { rule := Rule.compile, outputs := [joinPath testRootDir "test.a"],
          inputs := [joinPath testRootDir "test.go"],
          implicits := ["$compileCmd", testPkgArchive],
          args := [("pkgPath", "main"),
                   ("incFlags", "-I " ++ testRootDir)] },
        { rule := Rule.link, outputs := [joinPath testRootDir "test"],
          inputs := [joinPath testRootDir "test.a"],
          implicits := ["$linkCmd"],
          args := [("libDirFlags", String.intercalate " "
            (("-L " ++ testRootDir) ::
              (goPackageProducers ctx.depsDepthFirst).map
                (fun d => "-L " ++ d.pkgRoot)))] },
        { rule := Rule.test, outputs := [joinPath testRootDir "test.passed"],
          inputs := [joinPath testRootDir "test"],
          args := [("pkg", pkgPath),
                   ("pkgSrcDir", dirOf (joinPath (moduleSrcDir ctx) t0))] }],
       [joinPath testRootDir "test.passed"]) ∧
    (buildGoTest ctx testRootDir testPkgArchive pkgPath srcs genSrcs
        (t0 :: ts)).2 ≠ [joinPath testRootDir "test"] := by
  constructor
  · simp [buildGoTest, buildGoPackage]
  · intro hcontra
    have h2 : joinPath testRootDir "test.passed" = joinPath testRootDir
        "test" := by
      simpa [buildGoTest] using hcontra
    by_cases htr : testRootDir = ""
    · rw [htr] at h2
      exact absurd h2 (by decide)
    · rw [joinPath, joinPath, if_neg htr, if_neg (by decide), if_neg htr,
        if_neg (by decide)] at h2
      have hlen := congrArg String.length h2
      rw [String.length_append, String.length_append, String.length_append,
        String.length_append] at hlen
      have e1 : ("test.passed" : String).length = 11 := rfl
      have e2 : ("test" : String).length = 4 := rfl
      rw [e1, e2] at hlen
      omega

/-- C5 counterexample: with the concrete test source "sub/a_t.go" the test
working directory of the run action is the directory of the first test file,
"$srcDir/m/sub", which differs from the declared source directory of the module
"$srcDir/m". -/
theorem buildGoTest_workdir_not_module_src_dir :
    (((buildGoTest ⟨"m", "m", []⟩ "troot" "tpa" "x/y" ["a.go"] []
        ["sub/a_t.go"]).1.map
      (fun a => List.lookup "pkgSrcDir" a.args)).getLast? =
      some (some "$srcDir/m/sub")) ∧
    moduleSrcDir ⟨"m", "m", []⟩ = "$srcDir/m" ∧
    ("$srcDir/m/sub" : String) ≠ "$srcDir/m" := by
  refine ⟨?_, ?_, ?_⟩ <;> decide

/-- C5 witness: concrete instance showing the returned dependency edge is
not the executable. -/
theorem buildGoTest_pipeline_witness :
    (buildGoTest ⟨"w", "w", []⟩ "tr" "tpa" "pkg" ["a.go"] []
        ["b_t.go"]).2 ≠ [joinPath "tr" "test"] :=
  (buildGoTest_pipeline ⟨"w", "w", []⟩ "tr" "tpa" "pkg" ["a.go"] []
    "b_t.go" []).2

/-- C6: placeholder emission produces the no-op phony action whose inputs
are the module-dir-prefixed declared sources plus generated sources and
whose implicit dependencies are the archives of the Package dependencies,
one always-up-to-date marker action keyed on each individual input path,
and one marker action per listed intermediate; the Binary phony branch
passes exactly the raw linked a.out file and the object archive as
intermediates. -/
theorem phonyGoTarget_characterization (ctx : ModuleCtx) (target : String)
    (srcs gensrcs intermediates : List String) :
    (phonyGoTarget ctx target srcs gensrcs intermediates =
      { rule := Rule.phony, outputs := [target],
        inputs := prefixPaths srcs (joinPath "$srcDir" ctx.moduleDir) ++
          gensrcs,
        implicits := (goPackageProducers ctx.depsDepthFirst).map
          (fun d => d.archiveFile) } ::
        ((prefixPaths srcs (joinPath "$srcDir" ctx.moduleDir) ++
            gensrcs).map
            (fun s => { rule := Rule.builtinPhony, outputs := [s] }) ++
          intermediates.map
            (fun f => { rule := Rule.builtinPhony, outputs := [f] }))) ∧
    (∀ (config : Config) (plugins : List String) (g : GoBinary),
      config.stage ≠ Stage.bootstrap → config.stage ≠ g.buildStage →
      ¬(g.testSrcs ≠ [] ∧ config.runGoTests) →
      (goBinaryGenerateBuildActions config plugins ctx g).actions =
        phonyGoTarget ctx (joinPath "$BinDir" ctx.moduleName) g.srcs
          (if g.primaryBuilder ∧ plugins ≠ [] then
            [joinPath (moduleObjDir ctx) "plugin.go"]
          else [])
          [joinPath (moduleObjDir ctx) "a.out",
           joinPath (moduleObjDir ctx) (ctx.moduleName ++ ".a")]) := by
  constructor
  · rfl
  · intro config plugins g h1 h2 h3
    by_cases hp : g.primaryBuilder ∧ plugins ≠ [] <;>
      simp [goBinaryGenerateBuildActions, h1, h2, h3, hp]

/-- C6 witness: a concrete Binary at a later stage emits the placeholder
with the a.out file and object archive as intermediates. -/
theorem phonyGoTarget_characterization_witness :
    (goBinaryGenerateBuildActions ⟨Stage.main, false, "bp"⟩ []
        ⟨"bin1", "bin1", []⟩
        { srcs := ["main.go"], testSrcs := [], primaryBuilder := false,
          buildStage := Stage.primary }).actions =
      phonyGoTarget ⟨"bin1", "bin1", []⟩ (joinPath "$BinDir" "bin1")
        ["main.go"] []
        [joinPath (moduleObjDir ⟨"bin1", "bin1", []⟩) "a.out",
         joinPath (moduleObjDir ⟨"bin1", "bin1", []⟩) ("bin1" ++ ".a")] :=
  ((phonyGoTarget_characterization ⟨"bin1", "bin1", []⟩
      (joinPath "$BinDir" "bin1") ["main.go"] [] []).2
    ⟨Stage.main, false, "bp"⟩ []
    { srcs := ["main.go"], testSrcs := [], primaryBuilder := false,
      buildStage := Stage.primary }
    (by decide) (by decide) (by decide))

lemma pluginFinder_foldl (mods : List (String × BpModule)) :
    ∀ acc : List String,
      mods.foldl (fun a p => primaryBuilderPluginFinder a p.1 p.2) acc =
        acc ++ (mods.filter (fun p => match p.2 with
          | BpModule.pkg g => g.plugin
          | _ => false)).map (fun p => p.1) := by
  induction mods with
  | nil => intro acc; simp
  | cons m rest ih =>
    intro acc
    obtain ⟨nm, mm⟩ := m
    show List.foldl (fun a p => primaryBuilderPluginFinder a p.1 p.2)
      (primaryBuilderPluginFinder acc nm mm) rest = _
    rw [List.filter_cons]
    cases mm with
    | pkg g =>
      by_cases hpl : g.plugin = true
      · rw [show primaryBuilderPluginFinder acc nm (BpModule.pkg g) =
            acc ++ [nm] by simp [primaryBuilderPluginFinder, hpl],
          ih (acc ++ [nm])]
        simp [hpl]
      · rw [show primaryBuilderPluginFinder acc nm (BpModule.pkg g) =
            acc by simp [primaryBuilderPluginFinder, hpl], ih acc]
        simp [hpl]
    | bin g =>
      rw [show primaryBuilderPluginFinder acc nm (BpModule.bin g) = acc
        from rfl, ih acc]
      simp
    | other =>
      rw [show primaryBuilderPluginFinder acc nm BpModule.other = acc
        from rfl, ih acc]
      simp

lemma buildGoTest_rule_not_pluginGenSrc (ctx : ModuleCtx)
    (trd tpa pp : String) (srcs gen tests : List String) (a : BuildParams)
    (ha : a ∈ (buildGoTest ctx trd tpa pp srcs gen tests).1) :
    ¬(a.rule = Rule.pluginGenSrc) := by
  cases tests with
  | nil => simp [buildGoTest] at ha
  | cons t0 ts =>
    simp [buildGoTest, buildGoPackage] at ha
    rcases ha with rfl | rfl | rfl | rfl | rfl <;> simp

lemma buildGoPackage_shape (ctx : ModuleCtx) (pr pp af : String)
    (srcs gensrcs od : List String) :
    ∃ c : BuildParams,
      buildGoPackage ctx pr pp af srcs gensrcs od = [c] ∧
      c.rule = Rule.compile ∧ c.outputs = [af] ∧
      c.inputs = prefixPaths srcs (moduleSrcDir ctx) ++ gensrcs ∧
      c.orderOnly = od ∧
      c.implicits = "$compileCmd" ::
        (goPackageProducers ctx.depsDepthFirst).map
          (fun d => d.archiveFile) :=
  ⟨_, rfl, rfl, rfl, rfl, rfl, rfl⟩

lemma data_take2_joinPath (a b : String) (x y : Char)
    (h : a.data.take 2 = [x, y]) :
    (joinPath a b).data.take 2 = [x, y] := by
  unfold joinPath
  by_cases ha : a = ""
  · rw [ha] at h
    exact absurd h (by simp)
  · by_cases hb : b = ""
    · rw [if_neg ha, if_pos hb]
      exact h
    · rw [if_neg ha, if_neg hb]
      obtain ⟨rest, hrest⟩ : ∃ rest, a.data = x :: y :: rest := by
        cases hd : a.data with
        | nil => rw [hd] at h; exact absurd h (by simp)
        | cons c1 t1 =>
          cases t1 with
          | nil => rw [hd] at h; simp at h
          | cons c2 t2 =>
            rw [hd] at h
            simp only [List.take] at h
            obtain ⟨h1, h2⟩ := List.cons.inj h |>.imp id List.cons.inj
            exact ⟨t2, by rw [h1, h2.1]⟩
      rw [String.data_append, String.data_append, hrest]
      rfl

/-- C7 (amended): the graph-wide plugin pass appends, for every
plugin-flagged Package, the NAME of that module (not its package identifier) to
the process-wide list in traversal order; a primary-builder Binary takes
exactly this list as its dynamic dependency set and a non-flagged Binary
the empty set; and when the list is non-empty and the binary is built at
the active stage, the binary emits exactly one plugin-source-generation
action, emitted first, whose argument is the space-joined package paths of
its plugin dependencies and whose single output is the generated plugin.go
source, and that source is compiled alongside the declared sources in the
archive compile action of the binary. -/
theorem pluginDiscovery_and_registration :
    (∀ mods : List (String × BpModule),
      collectPrimaryBuilderPlugins mods =
        (mods.filter (fun p => match p.2 with
          | BpModule.pkg g => g.plugin
          | _ => false)).map (fun p => p.1)) ∧
    (∀ (plugins : List String) (g : GoBinary),
      (g.primaryBuilder = true →
        goBinaryDynamicDependencies plugins g = plugins) ∧
      (g.primaryBuilder = false →
        goBinaryDynamicDependencies plugins g = [])) ∧
    (∀ (config : Config) (plugins : List String) (ctx : ModuleCtx)
        (g : GoBinary),
      config.stage = g.buildStage → g.primaryBuilder = true →
      plugins ≠ [] →
      (goBinaryGenerateBuildActions config plugins ctx g).actions.head? =
        some { rule := Rule.pluginGenSrc,
               outputs := [joinPath (moduleObjDir ctx) "plugin.go"],
               implicits := ["$pluginGenSrcCmd"],
               args := [("plugins", String.intercalate " "
                 ((goPlugins ctx.depsDepthFirst).map
                   (fun p => p.pkgPath)))] } ∧
      ((goBinaryGenerateBuildActions config plugins ctx g).actions.filter
          (fun a => decide (a.rule = Rule.pluginGenSrc))).length = 1 ∧
      (∃ a : BuildParams,
        a ∈ (goBinaryGenerateBuildActions config plugins ctx g).actions ∧
        a.rule = Rule.compile ∧
        a.outputs = [joinPath (moduleObjDir ctx)
          (ctx.moduleName ++ ".a")] ∧
        a.inputs = prefixPaths g.srcs (moduleSrcDir ctx) ++
          [joinPath (moduleObjDir ctx) "plugin.go"])) := by
  refine ⟨?_, ?_, ?_⟩
  · intro mods
    exact pluginFinder_foldl mods []
  · intro plugins g
    constructor <;> intro hp <;> simp [goBinaryDynamicDependencies, hp]
  · intro config plugins ctx g hstage hpb hpl
    obtain ⟨tp, htp⟩ :
        ∃ tp : List BuildParams × List String,
          (if config.runGoTests then
            buildGoTest ctx (testRoot ctx)
              (if g.testSrcs ≠ [] ∧ config.runGoTests then
                joinPath (testRoot ctx) (ctx.moduleName ++ ".a")
              else g.testArchiveFile)
              ctx.moduleName g.srcs
              [joinPath (moduleObjDir ctx) "plugin.go"] g.testSrcs
          else ([], [])) = tp := ⟨_, rfl⟩
    have htpn : ∀ a ∈ tp.1, ¬(a.rule = Rule.pluginGenSrc) := by
      intro a ha
      by_cases hrt : config.runGoTests = true
      · rw [if_pos hrt] at htp
        exact buildGoTest_rule_not_pluginGenSrc ctx _ _ _ _ _ _ a
          (by rw [htp]; exact ha)
      · rw [if_neg hrt] at htp
        rw [← htp] at ha
        cases ha
    obtain ⟨c, hc1, hc2, hc3, hc4, _⟩ := buildGoPackage_shape ctx
      (moduleObjDir ctx) ctx.moduleName
      (joinPath (moduleObjDir ctx) (ctx.moduleName ++ ".a")) g.srcs
      [joinPath (moduleObjDir ctx) "plugin.go"] tp.2
    have heq : (goBinaryGenerateBuildActions config plugins ctx g).actions =
        { rule := Rule.pluginGenSrc,
          outputs := [joinPath (moduleObjDir ctx) "plugin.go"],
          implicits := ["$pluginGenSrcCmd"],
          args := [("plugins", String.intercalate " "
            ((goPlugins ctx.depsDepthFirst).map
              (fun p => p.pkgPath)))] } ::
          (tp.1 ++ (buildGoPackage ctx (moduleObjDir ctx) ctx.moduleName
            (joinPath (moduleObjDir ctx) (ctx.moduleName ++ ".a")) g.srcs
            [joinPath (moduleObjDir ctx) "plugin.go"] tp.2 ++
            [{ rule := Rule.link,
               outputs := [joinPath (moduleObjDir ctx) "a.out"],
               inputs := [joinPath (moduleObjDir ctx)
                 (ctx.moduleName ++ ".a")],
               implicits := ["$linkCmd"],
               args := (if ((goPackageProducers ctx.depsDepthFirst).map
                   (fun d => "-L " ++ d.pkgRoot)).isEmpty then []
                 else [("libDirFlags", String.intercalate " "
                   ((goPackageProducers ctx.depsDepthFirst).map
                     (fun d => "-L " ++ d.pkgRoot)))]) },
             { rule := Rule.cp,
               outputs := [joinPath "$BinDir" ctx.moduleName],
               inputs := [joinPath (moduleObjDir ctx) "a.out"] }])) := by
      simp [goBinaryGenerateBuildActions, hstage, hpb, hpl, htp]
    refine ⟨?_, ?_, ?_⟩
    · rw [heq]; rfl
    · rw [heq]
      rw [List.filter_cons_of_pos (by simp)]
      have hfil1 : tp.1.filter
          (fun a => decide (a.rule = Rule.pluginGenSrc)) = [] :=
        List.filter_eq_nil_iff.mpr (fun a ha => by simpa using htpn a ha)
      rw [List.filter_append, hfil1, List.filter_append, hc1]
      simp [hc2]
    · refine ⟨c, ?_, hc2, hc3, hc4⟩
      rw [heq]
      refine List.mem_cons_of_mem _ (List.mem_append.mpr (Or.inr ?_))
      refine List.mem_append.mpr (Or.inl ?_)
      rw [hc1]
      exact List.mem_singleton.mpr rfl

/-- C7 counterexample: the process-wide list receives the plugin-flagged
NAME of the module, not its package identifier: with one plugin Package named
"mymod" whose package path is "example.com/mymod", the collected list is
["mymod"], which differs from ["example.com/mymod"]. -/
theorem pluginList_holds_names_not_pkgPaths :
    collectPrimaryBuilderPlugins
        [("mymod", BpModule.pkg { pkgPath := "example.com/mymod",
                                  srcs := ["a.go"], testSrcs := [],
                                  plugin := true })] =
      ["mymod"] ∧
    ("mymod" : String) ≠ "example.com/mymod" :=
  ⟨rfl, by decide⟩

/-- C7 witness: a concrete primary-builder binary with one plugin dependency
emits the plugin-source-generation action first, exactly once, and compiles
plugin.go alongside its declared sources. -/
theorem pluginDiscovery_and_registration_witness :
    (goBinaryGenerateBuildActions ⟨Stage.primary, false, "bp"⟩ ["pmod"]
        ⟨"pb", "pb", [BpModule.pkg { pkgPath := "example.com/plug",
                                     srcs := ["p.go"], testSrcs := [],
                                     plugin := true }]⟩
        { srcs := ["main.go"], testSrcs := [], primaryBuilder := true,
          buildStage := Stage.primary }).actions.head? =
      some { rule := Rule.pluginGenSrc,
             outputs := [joinPath
               (moduleObjDir ⟨"pb", "pb",
                 [BpModule.pkg { pkgPath := "example.com/plug",
                                 srcs := ["p.go"], testSrcs := [],
                                 plugin := true }]⟩)
               "plugin.go"],
             implicits := ["$pluginGenSrcCmd"],
             args := [("plugins", String.intercalate " "
               ((goPlugins [BpModule.pkg { pkgPath := "example.com/plug",
                                           srcs := ["p.go"],
                                           testSrcs := [],
                                           plugin := true }]).map
                 (fun p => p.pkgPath)))] } ∧
    ((goBinaryGenerateBuildActions ⟨Stage.primary, false, "bp"⟩ ["pmod"]
        ⟨"pb", "pb", [BpModule.pkg { pkgPath := "example.com/plug",
                                     srcs := ["p.go"], testSrcs := [],
                                     plugin := true }]⟩
        { srcs := ["main.go"], testSrcs := [], primaryBuilder := true,
          buildStage := Stage.primary }).actions.filter
        (fun a => decide (a.rule = Rule.pluginGenSrc))).length = 1 ∧
    (∃ a : BuildParams,
      a ∈ (goBinaryGenerateBuildActions ⟨Stage.primary, false, "bp"⟩
        ["pmod"]
        ⟨"pb", "pb", [BpModule.pkg { pkgPath := "example.com/plug",
                                     srcs := ["p.go"], testSrcs := [],
                                     plugin := true }]⟩
        { srcs := ["main.go"], testSrcs := [], primaryBuilder := true,
          buildStage := Stage.primary }).actions ∧
      a.rule = Rule.compile ∧
      a.outputs = [joinPath
        (moduleObjDir ⟨"pb", "pb",
          [BpModule.pkg { pkgPath := "example.com/plug",
                          srcs := ["p.go"], testSrcs := [],
                          plugin := true }]⟩)
        ("pb" ++ ".a")] ∧
      a.inputs = prefixPaths ["main.go"]
        (moduleSrcDir ⟨"pb", "pb",
          [BpModule.pkg { pkgPath := "example.com/plug",
                          srcs := ["p.go"], testSrcs := [],
                          plugin := true }]⟩) ++
        [joinPath (moduleObjDir ⟨"pb", "pb",
          [BpModule.pkg { pkgPath := "example.com/plug",
                          srcs := ["p.go"], testSrcs := [],
                          plugin := true }]⟩)
          "plugin.go"]) :=
  pluginDiscovery_and_registration.2.2 ⟨Stage.primary, false, "bp"⟩
    ["pmod"]
    ⟨"pb", "pb", [BpModule.pkg { pkgPath := "example.com/plug",
                                 srcs := ["p.go"], testSrcs := [],
                                 plugin := true }]⟩
    { srcs := ["main.go"], testSrcs := [], primaryBuilder := true,
      buildStage := Stage.primary }
    rfl rfl (by decide)

/-- C8: a single Package with a non-empty package path, two declared
sources, no test sources, no dependencies, and a stage equal to the active
stage emits exactly one compile action whose inputs are precisely the two
source-root-prefixed files and whose arguments contain no include-directory
flags. -/
theorem goPackage_single_compile_action (config : Config) (ctx : ModuleCtx)
    (g : GoPackage) (s1 s2 : String)
    (hdeps : ctx.depsDepthFirst = [])
    (hpkg : g.pkgPath ≠ "") (hsrcs : g.srcs = [s1, s2])
    (htest : g.testSrcs = []) (hstage : config.stage = g.buildStage) :
    (goPackageGenerateBuildActions config ctx g).actions =
      [{ rule := Rule.compile,
         outputs := [joinPath (packageRoot ctx) (g.pkgPath ++ ".a")],
         inputs := [joinPath (moduleSrcDir ctx) s1,
                    joinPath (moduleSrcDir ctx) s2],
         implicits := ["$compileCmd"],
         args := [("pkgPath", g.pkgPath)] }] := by
  by_cases hrt : config.runGoTests = true <;>
    simp [goPackageGenerateBuildActions, hpkg, hstage, hrt, htest, hsrcs,
      hdeps, buildGoTest, buildGoPackage, prefixPaths, goPackageProducers]

/-- C8 witness: concrete two-source package at the active stage. -/
theorem goPackage_single_compile_action_witness :
    (goPackageGenerateBuildActions ⟨Stage.primary, true, "bp"⟩
        ⟨"m2", "m2", []⟩
        { pkgPath := "a/b", srcs := ["one.go", "two.go"], testSrcs := [],
          plugin := false, buildStage := Stage.primary }).actions =
      [{ rule := Rule.compile,
         outputs := [joinPath (packageRoot ⟨"m2", "m2", []⟩)
           ("a/b" ++ ".a")],
         inputs := [joinPath (moduleSrcDir ⟨"m2", "m2", []⟩) "one.go",
                    joinPath (moduleSrcDir ⟨"m2", "m2", []⟩) "two.go"],
         implicits := ["$compileCmd"],
         args := [("pkgPath", "a/b")] }] :=
  goPackage_single_compile_action ⟨Stage.primary, true, "bp"⟩
    ⟨"m2", "m2", []⟩
    { pkgPath := "a/b", srcs := ["one.go", "two.go"], testSrcs := [],
      plugin := false, buildStage := Stage.primary }
    "one.go" "two.go" rfl (by decide) rfl rfl rfl

/-- C10: when a Package is built at the active stage with testing enabled
and test sources present, the test.passed sentinel returned by the test
pipeline appears in the archive compile action only as an order-only
dependency: it is the whole order-only list, and it is neither a regular
input nor an implicit input of that action (assuming no dependency archive
path collides with the sentinel path). -/
theorem testSentinel_orderOnly_dependency (config : Config)
    (ctx : ModuleCtx) (g : GoPackage) (t0 : String) (ts : List String)
    (hpkg : g.pkgPath ≠ "") (hstage : config.stage = g.buildStage)
    (hrt : config.runGoTests = true) (htest : g.testSrcs = t0 :: ts)
    (hdeps : ∀ d ∈ goPackageProducers ctx.depsDepthFirst,
      d.archiveFile ≠ joinPath (testRoot ctx) "test.passed") :
    ∃ a : BuildParams,
      (goPackageGenerateBuildActions config ctx g).actions.getLast? =
        some a ∧
      a.rule = Rule.compile ∧
      a.outputs = [joinPath (packageRoot ctx) (g.pkgPath ++ ".a")] ∧
      a.orderOnly = [joinPath (testRoot ctx) "test.passed"] ∧
      joinPath (testRoot ctx) "test.passed" ∉ a.inputs ∧
      joinPath (testRoot ctx) "test.passed" ∉ a.implicits := by
  have heq : (goPackageGenerateBuildActions config ctx g).actions =
      (buildGoTest ctx (testRoot ctx)
        (joinPath (testRoot ctx) (g.pkgPath ++ ".a")) g.pkgPath g.srcs []
        (t0 :: ts)).1 ++
      buildGoPackage ctx (packageRoot ctx) g.pkgPath
        (joinPath (packageRoot ctx) (g.pkgPath ++ ".a")) g.srcs []
        ((buildGoTest ctx (testRoot ctx)
          (joinPath (testRoot ctx) (g.pkgPath ++ ".a")) g.pkgPath g.srcs []
          (t0 :: ts)).2) := by
    simp [goPackageGenerateBuildActions, hpkg, hstage, hrt, htest]
  have h2 : (buildGoTest ctx (testRoot ctx)
      (joinPath (testRoot ctx) (g.pkgPath ++ ".a")) g.pkgPath g.srcs []
      (t0 :: ts)).2 = [joinPath (testRoot ctx) "test.passed"] := rfl
  rw [h2] at heq
  obtain ⟨c, hc1, hc2, hc3, hc4, hc5, hc6⟩ := buildGoPackage_shape ctx
    (packageRoot ctx) g.pkgPath
    (joinPath (packageRoot ctx) (g.pkgPath ++ ".a")) g.srcs []
    [joinPath (testRoot ctx) "test.passed"]
  rw [hc1] at heq
  have hsent : (joinPath (testRoot ctx) "test.passed").data.take 2 =
      ['$', 'b'] := by
    apply data_take2_joinPath
    unfold testRoot
    apply data_take2_joinPath
    apply data_take2_joinPath
    decide
  refine ⟨c, ?_, hc2, hc3, hc5, ?_, ?_⟩
  · rw [heq]
    exact List.getLast?_concat _
  · intro hmem
    rw [hc4] at hmem
    rcases List.mem_append.mp hmem with h3 | h3
    · obtain ⟨s, _, hjoin⟩ := List.mem_map.mp h3
      have hsrc : (joinPath (moduleSrcDir ctx) s).data.take 2 =
          ['$', 's'] := by
        apply data_take2_joinPath
        unfold moduleSrcDir
        apply data_take2_joinPath
        decide
      rw [hjoin] at hsrc
      rw [hsent] at hsrc
      exact absurd hsrc (by decide)
    · cases h3
  · intro hmem
    rw [hc6] at hmem
    rcases List.mem_cons.mp hmem with h3 | h3
    · have : ("$compileCmd" : String).data.take 2 = ['$', 'c'] := by decide
      rw [← h3, hsent] at this
      exact absurd this (by decide)
    · obtain ⟨d, hd1, hd2⟩ := List.mem_map.mp h3
      exact hdeps d hd1 hd2

/-- C10 witness: concrete package with tests and one dependency archive. -/
theorem testSentinel_orderOnly_dependency_witness :
    ∃ a : BuildParams,
      (goPackageGenerateBuildActions ⟨Stage.primary, true, "bp"⟩ ctxW
          pkgW).actions.getLast? = some a ∧
      a.rule = Rule.compile ∧
      a.outputs = [joinPath (packageRoot ctxW) ("t/pkg" ++ ".a")] ∧
      a.orderOnly = [joinPath (testRoot ctxW) "test.passed"] ∧
      joinPath (testRoot ctxW) "test.passed" ∉ a.inputs ∧
      joinPath (testRoot ctxW) "test.passed" ∉ a.implicits :=
  testSentinel_orderOnly_dependency ⟨Stage.primary, true, "bp"⟩ ctxW pkgW
    "t_x.go" [] (by decide) rfl rfl rfl (by decide)

lemma singletonTail_errors (config : Config)
    (mods : List (String × BpModule)) (n e : String)
    (r0 p0 : List String) :
    (singletonTail config mods n e r0 p0).errors = [] := rfl

lemma singletonTail_name (config : Config)
    (mods : List (String × BpModule)) (n e : String)
    (r0 p0 : List String) :
    (singletonTail config mods n e r0 p0).primaryBuilderName = n := rfl

lemma singletonTail_last (config : Config)
    (mods : List (String × BpModule)) (n e : String)
    (r0 p0 : List String) :
    (singletonTail config mods n e r0 p0).actions.getLast? =
      some { rule := Rule.bootstrap, outputs := ["$buildDir/build.ninja"],
             inputs := [joinPath bootstrapDir "build.ninja.in"],
             implicits := ["$bootstrapCmd"] } :=
  List.getLast?_concat _

/-- C1: when two or more Binary modules carry the primary-builder flag, the
stage orchestrator reports a configuration error naming every offending
module and emits no action at all — in particular not the terminal
manifest-producing action; when no module carries the flag, generation
succeeds without error, the built-in bootstrap builder "minibp" is chosen
as the primary builder, and the terminal manifest-producing action is
emitted last. -/
theorem singleton_primaryBuilder_switch (config : Config)
    (mods : List (String × BpModule)) :
    (∀ (b1 b2 : String × GoBinary) (rest : List (String × GoBinary)),
      primaryBuildersOf mods = b1 :: b2 :: rest →
      (singletonGenerateBuildActions config mods).errors =
        "multiple primary builder modules present:" ::
          (b1 :: b2 :: rest).map (fun p => "<-- module " ++ p.1) ∧
      (singletonGenerateBuildActions config mods).actions = []) ∧
    (primaryBuildersOf mods = [] →
      (singletonGenerateBuildActions config mods).errors = [] ∧
      (singletonGenerateBuildActions config mods).primaryBuilderName =
        "minibp" ∧
      (singletonGenerateBuildActions config mods).actions.getLast? =
        some { rule := Rule.bootstrap,
               outputs := ["$buildDir/build.ninja"],
               inputs := [joinPath bootstrapDir "build.ninja.in"],
               implicits := ["$bootstrapCmd"] }) := by
  constructor
  · intro b1 b2 rest hpb
    constructor <;> simp [singletonGenerateBuildActions, hpb]
  · intro hpb
    refine ⟨?_, ?_, ?_⟩
    · simp only [singletonGenerateBuildActions, hpb]
      exact singletonTail_errors _ _ _ _ _ _
    · simp only [singletonGenerateBuildActions, hpb]
      exact singletonTail_name _ _ _ _ _ _
    · simp only [singletonGenerateBuildActions, hpb]
      exact singletonTail_last _ _ _ _ _ _

/-- C1 witness: a concrete graph with two primary builders errors naming
both modules and emits nothing, and a concrete graph with none succeeds
with minibp and ends with the terminal manifest action. -/
theorem singleton_primaryBuilder_switch_witness :
    ((singletonGenerateBuildActions cfgW modsTwoW).errors =
      "multiple primary builder modules present:" ::
        ([("a", binPBW), ("b", binPBW)].map
          (fun p => "<-- module " ++ p.1)) ∧
     (singletonGenerateBuildActions cfgW modsTwoW).actions = []) ∧
    ((singletonGenerateBuildActions cfgW modsZeroW).errors = [] ∧
     (singletonGenerateBuildActions cfgW modsZeroW).primaryBuilderName =
       "minibp" ∧
     (singletonGenerateBuildActions cfgW modsZeroW).actions.getLast? =
       some { rule := Rule.bootstrap,
              outputs := ["$buildDir/build.ninja"],
              inputs := [joinPath bootstrapDir "build.ninja.in"],
              implicits := ["$bootstrapCmd"] }) :=
  ⟨(singleton_primaryBuilder_switch cfgW modsTwoW).1 ("a", binPBW)
      ("b", binPBW) [] (by decide),
   (singleton_primaryBuilder_switch cfgW modsZeroW).2 (by decide)⟩

end BlueprintBootstrap
